import Mathlib

/-!
Verification of the trivia REST backend (`src/backend/flaskr/__init__.py`).

The embedding below models the two database tables as Lean lists, each
request handler as a pure function from the store (and the request's
parameters) to a response — and, for the mutating handlers, to an updated
store.  SQL-level behaviour that the handlers rely on is embedded
explicitly:

* `ORDER BY id` is insertion sort on the id field;
* Flask-SQLAlchemy `paginate(..., error_out=True)` aborts with 404 when
  the page number is below 1 or when the requested page has no items and
  is not page 1;
* `ILIKE` pattern matching is the standard SQL LIKE semantics
  (`%` matches any sequence, `_` any single character, other characters
  match case-insensitively);
* `ORDER BY random() LIMIT 1` is modelled by an arbitrary `shuffle`
  function, assumed to permute its input, followed by `take 1`;
* Python dict access `form[key]` on a missing key raises `KeyError`,
  which the `handle_exceptions` decorator converts to HTTP 500; a present
  key may still hold JSON `null`, hence `Option (Option String)` for the
  text fields of the creation form.

`models.py` is not part of the provided sources; the definitions marked
`Modelled from the spec:` follow the specification's description of it.
-/

namespace Trivia

/-- A row of the category table (models.py `Category`; spec section 3):
integer primary key `id` and a human-readable `type` string. -/
structure Category where
  id : Int
  type : String
deriving DecidableEq, Repr

/-- A row of the question table (models.py `Question`; spec section 3). -/
structure Question where
  id : Int
  question : String
  answer : String
  category : Int
  difficulty : Int
deriving DecidableEq, Repr

/-- Modelled from the spec: section 4.8 fixes the serialization of a
`Question` (models.py `Question.format`, not in the provided sources) to a
record with fields id, question, answer, category, difficulty. -/
structure QuestionJson where
  id : Int
  question : String
  answer : String
  category : Int
  difficulty : Int
deriving DecidableEq, Repr

/-- Modelled from the spec: serialization of one question, section 4.8. -/
def Question.format (q : Question) : QuestionJson :=
  { id := q.id, question := q.question, answer := q.answer,
    category := q.category, difficulty := q.difficulty }

/-- The database state: the two tables. -/
structure Store where
  questions : List Question
  categories : List Category
deriving DecidableEq, Repr

/-- A JSON response together with its HTTP status.  Fields that a given
endpoint does not emit stay `none`; `question` is doubly optional because
the quiz endpoint emits an explicit JSON `null` when out of questions. -/
structure Response where
  status : Nat
  success : Bool
  message : Option String := none
  error : Option Nat := none
  total_questions : Option Nat := none
  questions : Option (List QuestionJson) := none
  categories : Option (List (Int × String)) := none
  current_category : Option String := none
  total_categories : Option Nat := none
  id : Option Int := none
  question : Option (Option QuestionJson) := none
deriving DecidableEq, Repr

/-- The error envelopes registered with `app.errorhandler` at lines
258-292 of `flaskr/__init__.py`. -/
def errorResponse (code : Nat) : Response :=
  if code = 404 then
    { status := 404, success := false, error := some 404,
      message := some ("Resource Not Found") }
  else if code = 400 then
    { status := 400, success := false, error := some 400,
      message := some ("Bad Request") }
  else if code = 422 then
    { status := 422, success := false, error := some 422,
      message := some ("Unprocessable") }
  else
    { status := 500, success := false, error := some 500,
      message := some ("Internal Server Error") }

/-- `QUESTIONS_PER_PAGE = 10` from `flaskr/__init__.py` line 12. -/
def QUESTIONS_PER_PAGE : Nat := 10

/-- `categories_to_dict` from `flaskr/__init__.py` lines 15-27: the JSON
dict mapping category id to category type, as an association list. -/
def categories_to_dict (categories : List Category) : List (Int × String) :=
  categories.map (fun c => (c.id, c.type))

/-- `ORDER BY Question.id`: sort the question rows by ascending id. -/
def sortById (l : List Question) : List Question :=
  List.insertionSort (fun a b => a.id ≤ b.id) l

/-- `ORDER BY Category.id`: sort the category rows by ascending id. -/
def sortCategoriesById (l : List Category) : List Category :=
  List.insertionSort (fun a b => a.id ≤ b.id) l

/-- `Question.query.get(question_id)`: primary-key lookup. -/
def lookupQuestion (store : Store) (question_id : Int) : Option Question :=
  store.questions.find? (fun q => q.id = question_id)

/-- `Category.query.get(category_id)`: primary-key lookup. -/
def lookupCategory (store : Store) (category_id : Int) : Option Category :=
  store.categories.find? (fun c => c.id = category_id)

/-- Modelled from the spec: models.py `Question.insert` commits a new row
whose primary key is auto-assigned by the store (spec sections 3 and 4.3);
serial assignment picks the successor of the largest id in use. -/
def nextQuestionId (store : Store) : Int :=
  (store.questions.map (fun q => q.id)).foldr max 0 + 1

/-- SQL LIKE / ILIKE pattern matching: `%` matches any sequence of
characters, `_` matches any single character, and any other pattern
character matches a single text character up to case. -/
def ilikeMatch : List Char → List Char → Bool
  | [], ts => ts.isEmpty
  | p :: ps, ts =>
    if p = '%' then
      (List.range (ts.length + 1)).any (fun n => ilikeMatch ps (ts.drop n))
    else
      match ts with
      | [] => false
      | c :: ts2 => (p = '_' || p.toLower = c.toLower) && ilikeMatch ps ts2

/-- The property the spec ascribes to search (sections 4.5 and 8): the
term occurs in the question text as a case-insensitive substring. -/
def isCISubstringOf (s t : String) : Prop :=
  (s.data.map Char.toLower) <:+: (t.data.map Char.toLower)

instance (s t : String) : Decidable (isCISubstringOf s t) := by
  unfold isCISubstringOf
  infer_instance

/-- `get_categories` (`flaskr/__init__.py` lines 87-97). -/
def get_categories (store : Store) : Response :=
  { status := 200, success := true,
    total_categories := some store.categories.length,
    categories := some (categories_to_dict store.categories) }

/-- `get_paginated_questions` (`flaskr/__init__.py` lines 99-125).
`paginate(page=page, per_page=QUESTIONS_PER_PAGE, error_out=True)` aborts
with 404 when `page < 1` and when the requested slice is empty on a page
other than 1 (Flask-SQLAlchemy `Pagination`); otherwise it returns the
requested slice of the id-ordered rows. -/
def get_paginated_questions (store : Store) (page : Nat) : Response :=
  if page < 1 then errorResponse 404
  else
    let items := ((sortById store.questions).drop
      ((page - 1) * QUESTIONS_PER_PAGE)).take QUESTIONS_PER_PAGE
    if items = [] ∧ page ≠ 1 then errorResponse 404
    else
      { status := 200, success := true,
        total_questions := some items.length,
        questions := some (items.map Question.format),
        categories := some (categories_to_dict
          (sortCategoriesById store.categories)) }

/-- `delete_question` (`flaskr/__init__.py` lines 127-145), with the row
deletion itself modelled from the spec: models.py `Question.delete`
removes the row with that primary key and commits (spec section 4.4). -/
def delete_question (store : Store) (question_id : Int) : Store × Response :=
  match lookupQuestion store question_id with
  | none => (store, errorResponse 404)
  | some _ =>
    ({ store with
        questions := store.questions.eraseP (fun q => q.id = question_id) },
     { status := 200, success := true, id := some question_id })

/-- The JSON body of a creation request.  The outer `Option` is key
presence (`none` means the key is missing, so `form[key]` raises
`KeyError`); for the text fields the inner `Option` is JSON null. -/
structure CreateForm where
  question : Option (Option String)
  answer : Option (Option String)
  category : Option Int
  difficulty : Option Int
deriving DecidableEq, Repr

/-- `create_question` (`flaskr/__init__.py` lines 147-179).  Python
evaluates `form[key]` lazily along the short-circuited `or` chain of line
163, so a missing key raises `KeyError` — converted to 500 by
`handle_exceptions` — only when its access is actually reached.  The row
insertion is modelled from the spec: models.py `Question.insert` appends
a row with an auto-assigned id and commits (spec section 4.3). -/
def create_question (store : Store) (form : CreateForm) : Store × Response :=
  match form.question with
  | none => (store, errorResponse 500)
  | some qv =>
    if qv = some "" then (store, errorResponse 422)
    else
      match form.answer with
      | none => (store, errorResponse 500)
      | some av =>
        if av = some "" ∨ qv = none ∨ av = none then (store, errorResponse 422)
        else
          match form.category with
          | none => (store, errorResponse 500)
          | some cat =>
            if lookupCategory store cat = none then (store, errorResponse 422)
            else
              match form.difficulty with
              | none => (store, errorResponse 500)
              | some diff =>
                ({ store with questions := store.questions ++
                    [{ id := nextQuestionId store,
                       question := qv.getD "",
                       answer := av.getD "",
                       category := cat,
                       difficulty := diff }] },
                 { status := 200, success := true })

/-- `search_question` (`flaskr/__init__.py` lines 181-201): filter by
`Question.question.ilike(f'%{search_term}%')` — the term is interpolated
into the pattern unescaped — and return the full result set. -/
def search_question (store : Store) (search_term : String) : Response :=
  let questions := store.questions.filter
    (fun q => ilikeMatch ('%' :: search_term.data ++ ['%']) q.question.data)
  { status := 200, success := true,
    total_questions := some questions.length,
    questions := some (questions.map Question.format) }

/-- `get_questions_by_category` (`flaskr/__init__.py` lines 203-225). -/
def get_questions_by_category (store : Store) (category_id : Int) : Response :=
  match lookupCategory store category_id with
  | none => errorResponse 404
  | some category =>
    let questions := (store.questions.filter
      (fun q => q.category = category_id)).map Question.format
    { status := 200, success := true,
      total_questions := some questions.length,
      questions := some questions,
      current_category := some category.type }

/-- The candidate query of `play_quiz` (`flaskr/__init__.py` lines
241-248): all questions whose id is not in `previous_questions`,
restricted to the category when `int(category_id) > 0`. -/
def quizCandidates (store : Store) (category_id : Int)
    (previous_questions : List Int) : List Question :=
  if category_id > 0 then
    store.questions.filter
      (fun q => q.category = category_id ∧ q.id ∉ previous_questions)
  else
    store.questions.filter (fun q => q.id ∉ previous_questions)

/-- `play_quiz` (`flaskr/__init__.py` lines 227-256).  The `shuffle`
parameter stands for `ORDER BY func.random()`; `limit(1).all()` is
`take 1`, and `question[0].format() if question else None` is
`head?.map Question.format`. -/
def play_quiz (store : Store) (shuffle : List Question → List Question)
    (category_id : Int) (previous_questions : List Int) : Response :=
  let question :=
    (shuffle (quizCandidates store category_id previous_questions)).take 1
  { status := 200, success := true,
    question := some (question.head?.map Question.format) }

/-- One request to any of the seven endpoints. -/
inductive Request where
  | categories : Request
  | questions : Nat → Request
  | deleteQ : Int → Request
  | createQ : CreateForm → Request
  | search : String → Request
  | byCategory : Int → Request
  | quiz : Int → List Int → Request
deriving DecidableEq

/-- Dispatch one request against the store, returning the store left
behind and the response.  The read-only handlers never touch the store;
the mutating ones return the store produced by the handler. -/
def handle_request (shuffle : List Question → List Question)
    (store : Store) : Request → Store × Response
  | .categories => (store, get_categories store)
  | .questions page => (store, get_paginated_questions store page)
  | .deleteQ question_id => delete_question store question_id
  | .createQ form => create_question store form
  | .search term => (store, search_question store term)
  | .byCategory category_id => (store, get_questions_by_category store category_id)
  | .quiz category_id previous => (store, play_quiz store shuffle category_id previous)

/-- A concrete store used as a test fixture: two categories and three
questions, echoing the seeded trivia data the repository tests assume. -/
def demoQuestions : List Question :=
  [{ id := 1, question := "What is water made of", answer := "H2O",
     category := 1, difficulty := 2 },
   { id := 2, question := "Who painted the Mona Lisa", answer := "Da Vinci",
     category := 2, difficulty := 3 },
   { id := 3, question := "The Taj Mahal is located in which Indian city",
     answer := "Agra", category := 2, difficulty := 1 }]

/-- Categories of the test fixture. -/
def demoCategories : List Category :=
  [{ id := 1, type := "Science" }, { id := 2, type := "Art" }]

/-- The test-fixture store. -/
def demoStore : Store :=
  { questions := demoQuestions, categories := demoCategories }

/-- A creation body whose `answer` key is missing while `question` is the
empty string: the input separating the 422 path from the 500 path. -/
def missingAnswerForm : CreateForm :=
  { question := some (some ""), answer := none,
    category := some 1, difficulty := some 1 }

/-! Properties of the LIKE matcher. -/

theorem ilikeMatch_percent_iff (ps ts : List Char) :
    ilikeMatch ('%' :: ps) ts = true ↔ ∃ n, ilikeMatch ps (ts.drop n) = true := by
  have huf : ilikeMatch ('%' :: ps) ts =
      (List.range (ts.length + 1)).any (fun n => ilikeMatch ps (ts.drop n)) := by
    simp [ilikeMatch]
  rw [huf, List.any_eq_true]
  constructor
  · rintro ⟨n, _, hn⟩
    exact ⟨n, hn⟩
  · rintro ⟨n, hn⟩
    by_cases hle : n ≤ ts.length
    · exact ⟨n, by simpa [List.mem_range, Nat.lt_succ_iff] using hle, hn⟩
    · refine ⟨ts.length, by simp, ?_⟩
      rw [List.drop_length]
      rwa [List.drop_eq_nil_of_le (Nat.le_of_lt (Nat.lt_of_not_le hle))] at hn

theorem ilikeMatch_nil_all_percent (ps : List Char) (h : ∀ p ∈ ps, p = '%') :
    ilikeMatch ps [] = true := by
  induction ps with
  | nil => rfl
  | cons p ps ih =>
    have hp : p = '%' := h p (List.mem_cons_self p ps)
    subst hp
    rw [ilikeMatch_percent_iff]
    exact ⟨0, by simpa using ih (fun q hq => h q (List.mem_cons_of_mem _ hq))⟩

theorem ilikeMatch_all_percent (ps ts : List Char)
    (hne : ps ≠ []) (h : ∀ p ∈ ps, p = '%') : ilikeMatch ps ts = true := by
  match ps, hne with
  | p :: ps, _ =>
    have hp : p = '%' := h p (List.mem_cons_self p ps)
    subst hp
    rw [ilikeMatch_percent_iff]
    refine ⟨ts.length, ?_⟩
    rw [List.drop_length]
    exact ilikeMatch_nil_all_percent ps (fun q hq => h q (List.mem_cons_of_mem _ hq))

theorem ilikeMatch_plain_percent (s : List Char)
    (h : ∀ c ∈ s, c ≠ '%' ∧ c ≠ '_') (ts : List Char) :
    ilikeMatch (s ++ ['%']) ts = true ↔
      s.map Char.toLower <+: ts.map Char.toLower := by
  induction s generalizing ts with
  | nil =>
    simp only [List.nil_append, List.map_nil]
    constructor
    · intro _
      exact List.nil_prefix
    · intro _
      exact ilikeMatch_all_percent ['%'] ts (by simp) (by simp)
  | cons p s ih =>
    have hp := h p (List.mem_cons_self p s)
    have hs : ∀ c ∈ s, c ≠ '%' ∧ c ≠ '_' :=
      fun c hc => h c (List.mem_cons_of_mem _ hc)
    have huf : ilikeMatch (p :: s ++ ['%']) ts =
        (match ts with
         | [] => false
         | c :: ts2 =>
           (p = '_' || p.toLower = c.toLower) && ilikeMatch (s ++ ['%']) ts2) := by
      rw [List.cons_append]
      simp [ilikeMatch, hp.1]
    cases ts with
    | nil =>
      rw [huf]
      simp
    | cons c ts2 =>
      rw [huf]
      simp only [List.map_cons, List.cons_prefix_cons, Bool.and_eq_true,
        Bool.or_eq_true, decide_eq_true_eq]
      rw [ih hs ts2]
      constructor
      · rintro ⟨hc, hrest⟩
        rcases hc with hc | hc
        · exact absurd hc hp.2
        · exact ⟨hc, hrest⟩
      · rintro ⟨hc, hrest⟩
        exact ⟨Or.inr hc, hrest⟩

theorem ilikeMatch_substring (s : List Char)
    (h : ∀ c ∈ s, c ≠ '%' ∧ c ≠ '_') (ts : List Char) :
    ilikeMatch ('%' :: s ++ ['%']) ts = true ↔
      s.map Char.toLower <:+: ts.map Char.toLower := by
  rw [List.cons_append, ilikeMatch_percent_iff]
  constructor
  · rintro ⟨n, hn⟩
    rw [ilikeMatch_plain_percent s h] at hn
    refine List.infix_iff_prefix_suffix.mpr
      ⟨(ts.drop n).map Char.toLower, hn, ?_⟩
    rw [List.map_drop]
    exact List.drop_suffix _ _
  · intro hinf
    obtain ⟨t, hpre, hsuf⟩ := List.infix_iff_prefix_suffix.mp hinf
    have heq := List.suffix_iff_eq_drop.mp hsuf
    refine ⟨(ts.map Char.toLower).length - t.length, ?_⟩
    rw [ilikeMatch_plain_percent s h, List.map_drop, ← heq]
    exact hpre

theorem search_filter_eq (store : Store) (term : String)
    (h : ∀ c ∈ term.data, c ≠ '%' ∧ c ≠ '_') :
    store.questions.filter
        (fun q => ilikeMatch ('%' :: term.data ++ ['%']) q.question.data) =
      store.questions.filter (fun q => isCISubstringOf term q.question) := by
  apply List.filter_congr
  intro q _
  by_cases hq : isCISubstringOf term q.question
  · rw [decide_eq_true hq]
    exact (ilikeMatch_substring term.data h q.question.data).mpr hq
  · rw [decide_eq_false hq]
    cases hc : ilikeMatch ('%' :: term.data ++ ['%']) q.question.data with
    | false => rfl
    | true =>
      exact absurd ((ilikeMatch_substring term.data h q.question.data).mp hc) hq

/-- C9: the search term is interpolated unescaped into the SQL LIKE
pattern, so LIKE wildcard characters in the term are active rather than
literal: searching for the term consisting of a single percent sign
returns every question of every store — including, on the fixture store,
questions that do not contain the term as a literal substring. -/
theorem eq_percent_of_mem_percents {p : Char} {ps : List Char}
    (hps : ps = List.replicate ps.length '%') (hp : p ∈ ps) : p = '%' := by
  rw [hps] at hp
  exact List.eq_of_mem_replicate hp

theorem C9_wildcards_active :
    (∀ store : Store,
      (search_question store ("%")).questions =
          some (store.questions.map Question.format) ∧
        (search_question store ("%")).total_questions =
          some store.questions.length) ∧
    (∀ q ∈ demoStore.questions, ¬ isCISubstringOf ("%") q.question) := by
  constructor
  · intro store
    have hall : store.questions.filter
        (fun q => ilikeMatch ('%' :: ("%" : String).data ++ ['%'])
          q.question.data) = store.questions := by
      apply List.filter_eq_self.mpr
      intro q _
      exact ilikeMatch_all_percent _ _ (by decide)
        (fun p hp => eq_percent_of_mem_percents (by decide) hp)
    exact ⟨congrArg (fun l => some (List.map Question.format l)) hall,
      congrArg (fun l : List Question => some l.length) hall⟩
  · decide

/-- C9 witness: the percent-sign search on the fixture store returns all
three questions. -/
theorem C9_wildcards_active_witness :
    (search_question demoStore ("%")).questions =
      some (demoStore.questions.map Question.format) :=
  (C9_wildcards_active.1 demoStore).1

/-- C5 counterexample: on the fixture store, searching for the term
consisting of a single percent sign returns all three questions although
none of them contains that term as a case-insensitive literal substring,
so the endpoint does not return exactly the literal-substring matches. -/
theorem C5_counterexample :
    (search_question demoStore ("%")).questions =
        some (demoStore.questions.map Question.format) ∧
      (search_question demoStore ("%")).total_questions = some 3 ∧
      demoStore.questions.filter
        (fun q => isCISubstringOf ("%") q.question) = [] := by
  decide

/-- C5 (amended): for every search term containing no LIKE wildcard
character (no percent sign, no underscore), the search endpoint returns,
with HTTP 200 and success true, exactly the questions whose text contains
the term as a case-insensitive substring, with total_questions the size of
that set, unpaginated; in particular the empty term matches every
question. -/
theorem C5_search_amended (store : Store) (term : String)
    (h : ∀ c ∈ term.data, c ≠ '%' ∧ c ≠ '_') :
    (search_question store term).status = 200 ∧
      (search_question store term).success = true ∧
      (search_question store term).questions =
        some ((store.questions.filter
          (fun q => isCISubstringOf term q.question)).map Question.format) ∧
      (search_question store term).total_questions =
        some (store.questions.filter
          (fun q => isCISubstringOf term q.question)).length ∧
      (term = "" →
        (search_question store term).questions =
          some (store.questions.map Question.format)) := by
  have hf := search_filter_eq store term h
  refine ⟨rfl, rfl, ?_, ?_, ?_⟩
  · exact congrArg (fun l => some (List.map Question.format l)) hf
  · exact congrArg (fun l : List Question => some l.length) hf
  · intro he
    subst he
    have hall : store.questions.filter
        (fun q => ilikeMatch ('%' :: ("" : String).data ++ ['%'])
          q.question.data) = store.questions := by
      apply List.filter_eq_self.mpr
      intro q _
      exact ilikeMatch_all_percent _ _ (by decide)
        (fun p hp => eq_percent_of_mem_percents (by decide) hp)
    exact congrArg (fun l => some (List.map Question.format l)) hall

/-- C5 witness: a concrete wildcard-free term; the match is
case-insensitive (the fixture text has a capital M). -/
theorem C5_search_amended_witness :
    (search_question demoStore ("mona")).questions =
        some ((demoStore.questions.filter
          (fun q => isCISubstringOf ("mona") q.question)).map Question.format) ∧
      demoStore.questions.filter (fun q => isCISubstringOf ("mona") q.question) =
        [{ id := 2, question := "Who painted the Mona Lisa",
           answer := "Da Vinci", category := 2, difficulty := 3 }] := by
  refine ⟨(C5_search_amended demoStore ("mona") (by decide)).2.2.1, ?_⟩
  decide

/-- C1 (code behaviour at the failing input): requesting page 10000 of the
paginated question listing on the fixture store yields the 404 error
envelope — produced by paginate's error_out=True — and not an HTTP 200
response with an empty question list. -/
theorem C1_out_of_range_page_is_404 :
    get_paginated_questions demoStore 10000 = errorResponse 404 ∧
      (errorResponse 404).status = 404 ∧
      (errorResponse 404).success = false ∧
      (errorResponse 404).message = some ("Resource Not Found") := by
  decide

/-! Helper lemmas about the mutating handlers. -/

theorem delete_question_of_none {store : Store} {question_id : Int}
    (h : lookupQuestion store question_id = none) :
    delete_question store question_id = (store, errorResponse 404) := by
  unfold delete_question
  rw [h]

theorem delete_question_of_some {store : Store} {question_id : Int}
    {q : Question} (h : lookupQuestion store question_id = some q) :
    delete_question store question_id =
      ({ store with
          questions := store.questions.eraseP (fun r => r.id = question_id) },
       { status := 200, success := true, id := some question_id }) := by
  unfold delete_question
  rw [h]

theorem find?_eraseP_of_nodup (l : List Question) (question_id : Int)
    (h : (l.map (fun q => q.id)).Nodup) :
    (l.eraseP (fun q => q.id = question_id)).find?
      (fun q => q.id = question_id) = none := by
  induction l with
  | nil => rfl
  | cons q qs ih =>
    rw [List.map_cons, List.nodup_cons] at h
    rw [List.eraseP_cons]
    by_cases hq : q.id = question_id
    · rw [decide_eq_true hq, cond_true]
      apply List.find?_eq_none.mpr
      intro r hr hrd
      exact h.1 (List.mem_map.mpr
        ⟨r, hr, ((of_decide_eq_true hrd).trans hq.symm)⟩)
    · rw [decide_eq_false hq, cond_false]
      rw [List.find?_cons_of_neg _ (by simpa using hq)]
      exact ih h.2

/-- C6: the category-filtered listing yields the 404 envelope when no
category with the requested id exists; otherwise it returns, with HTTP 200
and success true, exactly the questions whose category equals the id (so
every returned question's category equals the id), total_questions equal
to their count, and current_category equal to the category's type. -/
theorem C6_questions_by_category (store : Store) (category_id : Int) :
    (lookupCategory store category_id = none →
      get_questions_by_category store category_id = errorResponse 404) ∧
    (∀ cat, lookupCategory store category_id = some cat →
      (get_questions_by_category store category_id).status = 200 ∧
      (get_questions_by_category store category_id).success = true ∧
      (get_questions_by_category store category_id).questions =
        some ((store.questions.filter
          (fun q => q.category = category_id)).map Question.format) ∧
      (get_questions_by_category store category_id).total_questions =
        some (store.questions.filter
          (fun q => q.category = category_id)).length ∧
      (get_questions_by_category store category_id).current_category =
        some cat.type ∧
      (∀ qj ∈ (store.questions.filter
          (fun q => q.category = category_id)).map Question.format,
        qj.category = category_id)) := by
  constructor
  · intro hnone
    unfold get_questions_by_category
    rw [hnone]
  · intro cat hsome
    unfold get_questions_by_category
    rw [hsome]
    refine ⟨rfl, rfl, rfl, ?_, rfl, ?_⟩
    · show some ((store.questions.filter
        (fun q => q.category = category_id)).map Question.format).length = _
      rw [List.length_map]
    · intro qj hqj
      obtain ⟨q, hq, hfmt⟩ := List.mem_map.mp hqj
      have hcat := of_decide_eq_true (List.mem_filter.mp hq).2
      rw [← hfmt]
      exact hcat

/-- C6 witness: category 2 of the fixture exists and has two questions;
category 99 does not exist. -/
theorem C6_questions_by_category_witness :
    (get_questions_by_category demoStore 2).status = 200 ∧
      (get_questions_by_category demoStore 2).current_category = some ("Art") ∧
      (get_questions_by_category demoStore 2).total_questions = some 2 ∧
      get_questions_by_category demoStore 99 = errorResponse 404 := by
  obtain ⟨hs, -, -, ht, hc, -⟩ :=
    (C6_questions_by_category demoStore 2).2
      { id := 2, type := "Art" } (by decide)
  refine ⟨hs, hc, ?_, (C6_questions_by_category demoStore 99).1 (by decide)⟩
  rw [ht]
  decide

/-- C4: deleting an id absent from the store yields the 404 envelope whose
message is Resource Not Found and leaves the store unchanged; deleting a
present id (question ids are unique, being primary keys) yields HTTP 200
with success true and the deleted id echoed, the question is absent from
the store afterwards, and deleting it again yields 404 on the unchanged
remaining store, not a silent success. -/
theorem C4_delete_question (store : Store) (question_id : Int)
    (hnodup : (store.questions.map (fun q => q.id)).Nodup) :
    (lookupQuestion store question_id = none →
      delete_question store question_id = (store, errorResponse 404) ∧
      (errorResponse 404).status = 404 ∧
      (errorResponse 404).success = false ∧
      (errorResponse 404).message = some ("Resource Not Found")) ∧
    (∀ q, lookupQuestion store question_id = some q →
      (delete_question store question_id).2.status = 200 ∧
      (delete_question store question_id).2.success = true ∧
      (delete_question store question_id).2.id = some question_id ∧
      lookupQuestion (delete_question store question_id).1 question_id = none ∧
      delete_question (delete_question store question_id).1 question_id =
        ((delete_question store question_id).1, errorResponse 404)) := by
  constructor
  · intro hnone
    exact ⟨delete_question_of_none hnone, rfl, rfl, rfl⟩
  · intro q hsome
    have habs : lookupQuestion (delete_question store question_id).1
        question_id = none := by
      rw [delete_question_of_some hsome]
      exact find?_eraseP_of_nodup store.questions question_id hnodup
    refine ⟨?_, ?_, ?_, habs, delete_question_of_none habs⟩
    · rw [delete_question_of_some hsome]
    · rw [delete_question_of_some hsome]
    · rw [delete_question_of_some hsome]

/-- C4 witness: question 2 exists in the fixture and question 99 does not. -/
theorem C4_delete_question_witness :
    (delete_question demoStore 2).2.status = 200 ∧
      (delete_question demoStore 2).2.id = some 2 ∧
      lookupQuestion (delete_question demoStore 2).1 2 = none ∧
      delete_question demoStore 99 = (demoStore, errorResponse 404) := by
  obtain ⟨hs, -, hid, habs, -⟩ :=
    (C4_delete_question demoStore 2 (by decide)).2
      { id := 2, question := "Who painted the Mona Lisa",
        answer := "Da Vinci", category := 2, difficulty := 3 } (by decide)
  exact ⟨hs, hid, habs,
    ((C4_delete_question demoStore 99 (by decide)).1 (by decide)).1⟩

theorem mem_quizCandidates {store : Store} {category_id : Int}
    {previous_questions : List Int} {q : Question}
    (hq : q ∈ quizCandidates store category_id previous_questions) :
    q ∈ store.questions ∧ q.id ∉ previous_questions ∧
      (category_id > 0 → q.category = category_id) := by
  unfold quizCandidates at hq
  by_cases hc : category_id > 0
  · rw [if_pos hc] at hq
    obtain ⟨hmem, hp⟩ := List.mem_filter.mp hq
    have hp2 := of_decide_eq_true hp
    exact ⟨hmem, hp2.2, fun _ => hp2.1⟩
  · rw [if_neg hc] at hq
    obtain ⟨hmem, hp⟩ := List.mem_filter.mp hq
    exact ⟨hmem, of_decide_eq_true hp, fun h => absurd h hc⟩

/-- C2: for every quiz-play request, the returned question (when non-null)
has an id not in previous_questions and, when the category id is positive,
has category equal to that id; when no question in the store satisfies
these constraints, the response is HTTP 200 with success true and question
null, never an error.  `shuffle` stands for ORDER BY random() and is
assumed to permute its input. -/
theorem C2_play_quiz (store : Store) (shuffle : List Question → List Question)
    (category_id : Int) (previous_questions : List Int)
    (hshuffle : ∀ l, (shuffle l).Perm l) :
    (play_quiz store shuffle category_id previous_questions).status = 200 ∧
    (play_quiz store shuffle category_id previous_questions).success = true ∧
    (∀ qj, (play_quiz store shuffle category_id previous_questions).question =
        some (some qj) →
      qj.id ∉ previous_questions ∧
        (category_id > 0 → qj.category = category_id)) ∧
    ((∀ q ∈ store.questions,
        q.id ∈ previous_questions ∨
          (category_id > 0 ∧ q.category ≠ category_id)) →
      (play_quiz store shuffle category_id previous_questions).question =
        some none) := by
  refine ⟨rfl, rfl, ?_, ?_⟩
  · intro qj hqj
    have h1 : ((shuffle (quizCandidates store category_id
        previous_questions)).take 1).head?.map Question.format = some qj :=
      Option.some.inj hqj
    obtain ⟨q, hq, hfmt⟩ := Option.map_eq_some'.mp h1
    obtain ⟨ys, hys⟩ := List.head?_eq_some_iff.mp hq
    have hmem : q ∈ shuffle (quizCandidates store category_id
        previous_questions) :=
      List.mem_of_mem_take (hys ▸ List.mem_cons_self q ys)
    have hcand := ((hshuffle _).mem_iff).mp hmem
    obtain ⟨-, hid, hcat⟩ := mem_quizCandidates hcand
    constructor
    · rw [← hfmt]
      exact hid
    · intro hpos
      rw [← hfmt]
      exact hcat hpos
  · intro hall
    have hcand : quizCandidates store category_id previous_questions = [] := by
      unfold quizCandidates
      by_cases h0 : category_id > 0
      · rw [if_pos h0]
        apply List.filter_eq_nil_iff.mpr
        intro q hq hdec
        have hp := of_decide_eq_true hdec
        rcases hall q hq with h | h
        · exact hp.2 h
        · exact h.2 hp.1
      · rw [if_neg h0]
        apply List.filter_eq_nil_iff.mpr
        intro q hq hdec
        rcases hall q hq with h | h
        · exact of_decide_eq_true hdec h
        · exact h0 h.1
    have hsh : shuffle (quizCandidates store category_id previous_questions)
        = [] := List.Perm.eq_nil (hcand ▸ hshuffle _)
    have hhd : ((shuffle (quizCandidates store category_id
        previous_questions)).take 1).head? = (none : Option Question) := by
      rw [hsh]
      rfl
    exact congrArg (fun o => some (Option.map Question.format o)) hhd

/-- C2 witness: with the identity permutation, category 1 of the fixture
and its only question already asked, the quiz returns the null question
with HTTP 200. -/
theorem C2_play_quiz_witness :
    (play_quiz demoStore (fun l => l) 1 [1]).status = 200 ∧
      (play_quiz demoStore (fun l => l) 1 [1]).success = true ∧
      (play_quiz demoStore (fun l => l) 1 [1]).question = some none := by
  have h := C2_play_quiz demoStore (fun l => l) 1 [1]
    (fun l => List.Perm.refl l)
  exact ⟨h.1, h.2.1, h.2.2.2 (by decide)⟩

/-- C7: for every in-range page request (the page is at least 1 and is
either page 1 or has a nonempty slice), the paginated listing orders the
questions by ascending id, applies the fixed page size
QUESTIONS_PER_PAGE = 10, returns the requested page's slice of the sorted
order, and reports total_questions as the length of the returned question
list — not the database-wide total. -/
theorem C7_pagination (store : Store) (page : Nat) (items : List Question)
    (hitems : items = ((sortById store.questions).drop
      ((page - 1) * QUESTIONS_PER_PAGE)).take QUESTIONS_PER_PAGE)
    (h1 : 1 ≤ page) (h2 : page = 1 ∨ items ≠ []) :
    (get_paginated_questions store page).status = 200 ∧
    (get_paginated_questions store page).success = true ∧
    (get_paginated_questions store page).questions =
      some (items.map Question.format) ∧
    (get_paginated_questions store page).total_questions =
      some items.length ∧
    items.length ≤ QUESTIONS_PER_PAGE ∧
    QUESTIONS_PER_PAGE = 10 ∧
    List.Sorted (fun a b : Question => a.id ≤ b.id) items ∧
    List.Sorted (fun a b : Question => a.id ≤ b.id) (sortById store.questions) ∧
    (sortById store.questions).Perm store.questions := by
  have hsorted : List.Sorted (fun a b : Question => a.id ≤ b.id)
      (sortById store.questions) := by
    unfold sortById
    haveI : IsTotal Question (fun a b => a.id ≤ b.id) :=
      ⟨fun a b => Int.le_total a.id b.id⟩
    haveI : IsTrans Question (fun a b => a.id ≤ b.id) :=
      ⟨fun a b c hab hbc => le_trans hab hbc⟩
    exact List.sorted_insertionSort _ _
  have hperm : (sortById store.questions).Perm store.questions :=
    List.perm_insertionSort _ _
  have hnot : ¬ page < 1 := by omega
  have hcond : ¬ (((sortById store.questions).drop
      ((page - 1) * QUESTIONS_PER_PAGE)).take QUESTIONS_PER_PAGE = [] ∧
      page ≠ 1) := by
    rcases h2 with h | h
    · exact fun hx => hx.2 h
    · exact fun hx => h (hitems.trans hx.1)
  have hresp : get_paginated_questions store page =
      { status := 200, success := true,
        total_questions := some items.length,
        questions := some (items.map Question.format),
        categories := some (categories_to_dict
          (sortCategoriesById store.categories)) } := by
    unfold get_paginated_questions
    rw [if_neg hnot]
    show (if _ ∧ _ then _ else _) = _
    rw [if_neg hcond, hitems]
  refine ⟨?_, ?_, ?_, ?_, ?_, rfl, ?_, hsorted, hperm⟩
  · rw [hresp]
  · rw [hresp]
  · rw [hresp]
  · rw [hresp]
  · rw [hitems]
    exact List.length_take_le _ _
  · rw [hitems]
    exact List.Pairwise.sublist
      ((List.take_sublist _ _).trans (List.drop_sublist _ _)) hsorted

/-- C7 witness: page 1 of the fixture store holds all three questions in
id order and total_questions reports 3, the page's item count. -/
theorem C7_pagination_witness :
    (get_paginated_questions demoStore 1).status = 200 ∧
      (get_paginated_questions demoStore 1).questions =
        some (demoQuestions.map Question.format) ∧
      (get_paginated_questions demoStore 1).total_questions = some 3 := by
  have h := C7_pagination demoStore 1 demoQuestions (by decide)
    (by decide) (Or.inl rfl)
  exact ⟨h.1, h.2.2.1, h.2.2.2.1⟩

theorem create_question_q_empty (store : Store) (qv : Option String)
    (a? : Option (Option String)) (c? d? : Option Int) (h : qv = some "") :
    create_question store
        { question := some qv, answer := a?, category := c?, difficulty := d? } =
      (store, errorResponse 422) := by
  simp only [create_question]
  rw [if_pos h]

theorem create_question_a_missing (store : Store) (qv : Option String)
    (c? d? : Option Int) (h : ¬ qv = some "") :
    create_question store
        { question := some qv, answer := none,
          category := c?, difficulty := d? } =
      (store, errorResponse 500) := by
  simp only [create_question]
  rw [if_neg h]

theorem create_question_unprocessable (store : Store) (qv av : Option String)
    (c? d? : Option Int) (h1 : ¬ qv = some "")
    (h2 : av = some "" ∨ qv = none ∨ av = none) :
    create_question store
        { question := some qv, answer := some av,
          category := c?, difficulty := d? } =
      (store, errorResponse 422) := by
  simp only [create_question]
  rw [if_neg h1, if_pos h2]

theorem create_question_c_missing (store : Store) (qv av : Option String)
    (d? : Option Int) (h1 : ¬ qv = some "")
    (h2 : ¬ (av = some "" ∨ qv = none ∨ av = none)) :
    create_question store
        { question := some qv, answer := some av,
          category := none, difficulty := d? } =
      (store, errorResponse 500) := by
  simp only [create_question]
  rw [if_neg h1, if_neg h2]

theorem create_question_c_bad (store : Store) (qv av : Option String)
    (c : Int) (d? : Option Int) (h1 : ¬ qv = some "")
    (h2 : ¬ (av = some "" ∨ qv = none ∨ av = none))
    (h3 : lookupCategory store c = none) :
    create_question store
        { question := some qv, answer := some av,
          category := some c, difficulty := d? } =
      (store, errorResponse 422) := by
  simp only [create_question]
  rw [if_neg h1, if_neg h2, if_pos h3]

theorem create_question_d_missing (store : Store) (qv av : Option String)
    (c : Int) (h1 : ¬ qv = some "")
    (h2 : ¬ (av = some "" ∨ qv = none ∨ av = none))
    (h3 : ¬ lookupCategory store c = none) :
    create_question store
        { question := some qv, answer := some av,
          category := some c, difficulty := none } =
      (store, errorResponse 500) := by
  simp only [create_question]
  rw [if_neg h1, if_neg h2, if_neg h3]

theorem create_question_success (store : Store) (qv av : Option String)
    (c diff : Int) (h1 : ¬ qv = some "")
    (h2 : ¬ (av = some "" ∨ qv = none ∨ av = none))
    (h3 : ¬ lookupCategory store c = none) :
    create_question store
        { question := some qv, answer := some av,
          category := some c, difficulty := some diff } =
      ({ store with questions := store.questions ++
          [{ id := nextQuestionId store, question := qv.getD "",
             answer := av.getD "", category := c, difficulty := diff }] },
       { status := 200, success := true }) := by
  simp only [create_question]
  rw [if_neg h1, if_neg h2, if_neg h3]

/-- C3: for every creation request whose body contains all four keys: an
empty or null question or answer yields 422 whatever the category value
(the emptiness check precedes the category check); otherwise a category
matching no existing Category yields 422; otherwise a new question row
with an auto-assigned id is appended to the store and the response body
carries only the success flag. -/
theorem C3_create_question (store : Store) (qv av : Option String)
    (c d : Int) :
    ((qv = some "" ∨ av = some "" ∨ qv = none ∨ av = none) →
      create_question store
          { question := some qv, answer := some av,
            category := some c, difficulty := some d } =
        (store, errorResponse 422)) ∧
    (∀ qs as0, qv = some qs → av = some as0 → qs ≠ "" → as0 ≠ "" →
      ((lookupCategory store c = none →
        create_question store
            { question := some qv, answer := some av,
              category := some c, difficulty := some d } =
          (store, errorResponse 422)) ∧
       (lookupCategory store c ≠ none →
        create_question store
            { question := some qv, answer := some av,
              category := some c, difficulty := some d } =
          ({ store with questions := store.questions ++
              [{ id := nextQuestionId store, question := qs, answer := as0,
                 category := c, difficulty := d }] },
           { status := 200, success := true })))) := by
  constructor
  · intro h
    by_cases hq : qv = some ""
    · exact create_question_q_empty store qv _ _ _ hq
    · have hcond : av = some "" ∨ qv = none ∨ av = none := by
        rcases h with h | h | h | h
        · exact absurd h hq
        · exact Or.inl h
        · exact Or.inr (Or.inl h)
        · exact Or.inr (Or.inr h)
      exact create_question_unprocessable store qv av _ _ hq hcond
  · intro qs as0 hq ha hqs has0
    subst hq
    subst ha
    have hqne : ¬ (some qs : Option String) = some "" :=
      fun hcontra => hqs (Option.some.inj hcontra)
    have hcond : ¬ ((some as0 : Option String) = some "" ∨
        (some qs : Option String) = none ∨
        (some as0 : Option String) = none) := by
      rintro (h | h | h)
      · exact has0 (Option.some.inj h)
      · exact Option.noConfusion h
      · exact Option.noConfusion h
    constructor
    · intro hnone
      exact create_question_c_bad store (some qs) (some as0) c _ hqne hcond hnone
    · intro hne
      exact create_question_success store (some qs) (some as0) c d
        hqne hcond hne

/-- C3 witness: a valid creation on the fixture appends the new row with
the next id (4) and answers with the success-only body; an empty question
is rejected with 422 even though its category is valid. -/
theorem C3_create_question_witness :
    create_question demoStore
        { question := some (some ("New question")),
          answer := some (some ("New answer")),
          category := some 2, difficulty := some 1 } =
      ({ demoStore with questions := demoStore.questions ++
          [{ id := nextQuestionId demoStore, question := "New question",
             answer := "New answer", category := 2, difficulty := 1 }] },
       { status := 200, success := true }) ∧
    create_question demoStore
        { question := some (some ("")),
          answer := some (some ("New answer")),
          category := some 2, difficulty := some 1 } =
      (demoStore, errorResponse 422) := by
  constructor
  · exact ((C3_create_question demoStore (some ("New question"))
      (some ("New answer")) 2 1).2 "New question" "New answer" rfl rfl
      (by decide) (by decide)).2 (by decide)
  · exact (C3_create_question demoStore (some ("")) (some ("New answer"))
      2 1).1 (Or.inl rfl)

/-- C10 counterexample: a creation body missing the `answer` key but
carrying an empty-string `question` is answered 422, not 500: the
short-circuited emptiness check fires before the missing key is ever
accessed, so a missing key does not always produce HTTP 500. -/
theorem C10_counterexample :
    missingAnswerForm.answer = none ∧
      (create_question demoStore missingAnswerForm).2 = errorResponse 422 ∧
      (create_question demoStore missingAnswerForm).2.status ≠ 500 := by
  decide

/-- C10 (amended): a missing key yields HTTP 500 — the KeyError converted
by the generic guard — exactly when its access is reached by the Python
evaluation order: always for a missing `question` key; for a missing
`answer` key whenever the question value is not the empty string; for a
missing `category` key whenever question and answer pass the
empty-or-null check; for a missing `difficulty` key whenever additionally
the category exists.  In every such case nothing is inserted (a 422 is
produced instead when an earlier validation fails first). -/
theorem C10_missing_key_500 (store : Store) (form : CreateForm)
    (h : form.question = none ∨
      (∃ qv, form.question = some qv ∧ qv ≠ some "" ∧
        (form.answer = none ∨
          (∃ av, form.answer = some av ∧
            ¬(av = some "" ∨ qv = none ∨ av = none) ∧
            (form.category = none ∨
              (∃ c, form.category = some c ∧
                lookupCategory store c ≠ none ∧
                form.difficulty = none)))))) :
    create_question store form = (store, errorResponse 500) := by
  obtain ⟨q?, a?, c?, d?⟩ := form
  dsimp only at h
  rcases h with h | ⟨qv, hq, hqne, h⟩
  · subst h
    rfl
  · subst hq
    rcases h with h | ⟨av, ha, hav, h⟩
    · subst h
      exact create_question_a_missing store qv c? d? hqne
    · subst ha
      rcases h with h | ⟨c, hc, hcat, h⟩
      · subst h
        exact create_question_c_missing store qv av d? hqne hav
      · subst hc
        subst h
        exact create_question_d_missing store qv av c hqne hav hcat

/-- C10 witness: a body with no `question` key at all is answered 500. -/
theorem C10_missing_key_500_witness :
    create_question demoStore
        { question := none, answer := some (some ("New answer")),
          category := some 1, difficulty := some 1 } =
      (demoStore, errorResponse 500) :=
  C10_missing_key_500 demoStore _ (Or.inl rfl)

theorem delete_question_fst_or_200 (store : Store) (question_id : Int) :
    (delete_question store question_id).1 = store ∨
      (delete_question store question_id).2.status = 200 := by
  rcases hl : lookupQuestion store question_id with - | q
  · rw [delete_question_of_none hl]
    exact Or.inl rfl
  · rw [delete_question_of_some hl]
    exact Or.inr rfl

theorem create_question_fst_or_200 (store : Store) (form : CreateForm) :
    (create_question store form).1 = store ∨
      (create_question store form).2.status = 200 := by
  obtain ⟨q?, a?, c?, d?⟩ := form
  cases q? with
  | none => exact Or.inl rfl
  | some qv =>
    by_cases h1 : qv = some ""
    · rw [create_question_q_empty store qv a? c? d? h1]
      exact Or.inl rfl
    · cases a? with
      | none =>
        rw [create_question_a_missing store qv c? d? h1]
        exact Or.inl rfl
      | some av =>
        by_cases h2 : av = some "" ∨ qv = none ∨ av = none
        · rw [create_question_unprocessable store qv av c? d? h1 h2]
          exact Or.inl rfl
        · cases c? with
          | none =>
            rw [create_question_c_missing store qv av d? h1 h2]
            exact Or.inl rfl
          | some c =>
            by_cases h3 : lookupCategory store c = none
            · rw [create_question_c_bad store qv av c d? h1 h2 h3]
              exact Or.inl rfl
            · cases d? with
              | none =>
                rw [create_question_d_missing store qv av c h1 h2 h3]
                exact Or.inl rfl
              | some diff =>
                rw [create_question_success store qv av c diff h1 h2 h3]
                exact Or.inr rfl

/-- C8: every request that produces an error response (any status other
than 200, covering the 404, 422 and 500 envelopes the handlers emit)
leaves the database state unchanged: each handler mutates the store only
on its success path, so nothing an error response could have written
survives the request. -/
theorem C8_errors_leave_store_unchanged
    (shuffle : List Question → List Question) (store : Store) (req : Request)
    (h : (handle_request shuffle store req).2.status ≠ 200) :
    (handle_request shuffle store req).1 = store := by
  cases req with
  | categories => rfl
  | questions page => rfl
  | search term => rfl
  | byCategory category_id => rfl
  | quiz category_id previous => rfl
  | deleteQ question_id =>
    rcases delete_question_fst_or_200 store question_id with h2 | h2
    · exact h2
    · exact absurd h2 h
  | createQ form =>
    rcases create_question_fst_or_200 store form with h2 | h2
    · exact h2
    · exact absurd h2 h

/-- C8 witness: deleting the nonexistent question 99 produces an error
response and the fixture store is untouched. -/
theorem C8_errors_leave_store_unchanged_witness :
    (handle_request (fun l => l) demoStore (Request.deleteQ 99)).1 =
      demoStore :=
  C8_errors_leave_store_unchanged (fun l => l) demoStore
    (Request.deleteQ 99) (by decide)

end Trivia
